import Mathlib

/-!
Verification of the request/response bridge, conversation store and streaming
protocol of the Puter AI editor extension (src/src/puterAIService.ts and the
webview script's handleStreamRequest).  Each TypeScript function of interest is
shallowly embedded as an executable Lean definition; external collaborators
(the remote executor, the JSON parser, identifier generation) are parameters.
-/

/-! ## Data model (src/src/puterAIService.ts, interfaces) -/

/-- Message role, from the ChatMessage interface. -/
inductive Role where
  | user
  | assistant
  | system
deriving DecidableEq, Repr

/-- ChatMessage from src/src/puterAIService.ts lines 3-7. -/
structure ChatMessage where
  role : Role
  content : String
  timestamp : Nat
deriving DecidableEq, Repr

/-- PuterAPIResponse from src/src/puterAIService.ts lines 15-20.
Optional fields carry Option. -/
structure PuterAPIResponse where
  requestId : String
  success : Bool
  data : Option String
  error : Option String
deriving DecidableEq, Repr

/-! ## Conversation store (addToHistory / getHistory / clearHistory) -/

/-- The service field maxHistoryLength = 50. -/
def maxHistoryLength : Nat := 50

/-- addToHistory's effect on one conversation's list (lines 49-60):
push the message, then if the length exceeds maxHistoryLength shift off
the oldest element. -/
def addToHistory (history : List ChatMessage) (message : ChatMessage) :
    List ChatMessage :=
  let h := history ++ [message]
  if maxHistoryLength < h.length then h.drop 1 else h

/-- The conversationHistory map, observed through getHistory: a total
function defaulting to the empty list for unknown ids (get(...) || []). -/
def ConvStore : Type := String → List ChatMessage

/-- The initial, empty conversationHistory map. -/
def emptyStore : ConvStore := fun _ => []

/-- addToHistory at the map level (lines 49-60): ensure the conversation
exists, then push with the cap. -/
def storeAdd (st : ConvStore) (cid : String) (m : ChatMessage) : ConvStore :=
  Function.update st cid (addToHistory (st cid) m)

/-- getHistory (lines 62-64): the stored list, or [] for an unknown id. -/
def getHistory (st : ConvStore) (cid : String) : List ChatMessage :=
  st cid

/-- clearHistory (lines 66-68): delete the conversation; afterwards
getHistory yields []. -/
def clearHistory (st : ConvStore) (cid : String) : ConvStore :=
  Function.update st cid []

/-- A history-mutating operation on the store. -/
inductive StoreOp where
  | add (cid : String) (m : ChatMessage)
  | clear (cid : String)

/-- Apply one operation. -/
def applyOp (st : ConvStore) : StoreOp → ConvStore
  | .add cid m => storeAdd st cid m
  | .clear cid => clearHistory st cid

/-- Apply a sequence of operations, oldest first. -/
def applyOps (st : ConvStore) (ops : List StoreOp) : ConvStore :=
  ops.foldl applyOp st

/-! ### Conversation store lemmas -/

theorem addToHistory_length_le (h : List ChatMessage) (m : ChatMessage)
    (hh : h.length ≤ maxHistoryLength) :
    (addToHistory h m).length ≤ maxHistoryLength := by
  unfold addToHistory
  simp only [List.length_append, List.length_cons, List.length_nil]
  split <;> simp_all

theorem addToHistory_window (h : List ChatMessage) (m : ChatMessage)
    (hh : h.length ≤ maxHistoryLength) :
    addToHistory h m = (h ++ [m]).drop ((h.length + 1) - maxHistoryLength) := by
  unfold addToHistory
  simp only [List.length_append, List.length_cons, List.length_nil]
  split
  · have : h.length + 1 - maxHistoryLength = 1 := by omega
    simp [this]
  · have : h.length + 1 - maxHistoryLength = 0 := by omega
    simp [this]

theorem foldl_addToHistory_window (msgs : List ChatMessage) :
    ∀ h : List ChatMessage, h.length ≤ maxHistoryLength →
      msgs.foldl addToHistory h =
        (h ++ msgs).drop ((h.length + msgs.length) - maxHistoryLength) := by
  induction msgs with
  | nil =>
    intro h hh
    have : h.length - maxHistoryLength = 0 := by omega
    simp [this]
  | cons m ms ih =>
    intro h hh
    have hlen := addToHistory_length_le h m hh
    have hwin := addToHistory_window h m hh
    simp only [List.foldl_cons]
    rw [ih (addToHistory h m) hlen]
    rw [hwin]
    by_cases hc : h.length + 1 ≤ maxHistoryLength
    · have h0 : h.length + 1 - maxHistoryLength = 0 := by omega
      have h1 : (h ++ [m]).length = h.length + 1 := by simp
      simp only [h0, List.drop_zero]
      rw [h1]
      have : (h ++ [m]) ++ ms = h ++ m :: ms := by simp
      rw [this]
      congr 1
      simp [List.length_cons]
      omega
    · have hEq : h.length = maxHistoryLength := by omega
      have h1 : h.length + 1 - maxHistoryLength = 1 := by omega
      simp only [h1]
      have hdlen : ((h ++ [m]).drop 1).length = h.length := by
        simp
      rw [hdlen, hEq]
      have hd1 : (h ++ [m]).drop 1 ++ ms = (h ++ m :: ms).drop 1 := by
        rcases h with _ | ⟨a, t⟩
        · simp at hEq
          exact absurd hEq (by decide)
        · simp
      rw [hd1, List.drop_drop]
      congr 1
      simp [List.length_cons]
      omega

theorem storeAdd_foldl_at (msgs : List ChatMessage) :
    ∀ (st : ConvStore) (cid : String),
      (msgs.foldl (fun s m => storeAdd s cid m) st) cid =
        msgs.foldl addToHistory (st cid) := by
  induction msgs with
  | nil => intro st cid; rfl
  | cons m ms ih =>
    intro st cid
    simp only [List.foldl_cons]
    rw [ih]
    congr 1
    simp [storeAdd]

/-- The store-wide cap invariant is preserved by every operation. -/
theorem applyOp_cap (st : ConvStore) (op : StoreOp)
    (hst : ∀ cid, (st cid).length ≤ maxHistoryLength) :
    ∀ cid, ((applyOp st op) cid).length ≤ maxHistoryLength := by
  intro cid
  cases op with
  | add c m =>
    simp only [applyOp, storeAdd]
    by_cases hc : cid = c
    · subst hc
      simp [Function.update]
      exact addToHistory_length_le _ _ (hst cid)
    · rw [Function.update_noteq hc]
      exact hst cid
  | clear c =>
    simp only [applyOp, clearHistory]
    by_cases hc : cid = c
    · subst hc; simp [Function.update]
    · rw [Function.update_noteq hc]
      exact hst cid

theorem applyOps_cap (ops : List StoreOp) :
    ∀ st : ConvStore, (∀ cid, (st cid).length ≤ maxHistoryLength) →
      ∀ cid, ((applyOps st ops) cid).length ≤ maxHistoryLength := by
  induction ops with
  | nil => intro st hst cid; exact hst cid
  | cons op rest ih =>
    intro st hst cid
    simp only [applyOps, List.foldl_cons]
    exact ih (applyOp st op) (applyOp_cap st op hst) cid

/-! ## Pending-request table and request settlement
(handleAPIResponse, lines 37-47, and the per-attempt promise of
callPuterAPI, lines 355-381) -/

/-- How the per-request promise ended: resolve(value) carries response.data
as is; reject carries the error message. -/
inductive Settled where
  | resolved (value : Option String)
  | rejected (message : String)
deriving DecidableEq, Repr

/-- JavaScript's (x || d) on an optional string: undefined and the empty
string are both falsy. -/
def jsOrDefault (o : Option String) (d : String) : String :=
  match o with
  | some s => if s = "" then d else s
  | none => d

/-- A promise settles at most once: later resolve/reject calls on the same
requestId do not change the recorded outcome. -/
def settleOnce (l : List (String × Settled)) (rid : String) (out : Settled) :
    List (String × Settled) :=
  if l.any (fun p => p.1 = rid) then l else (rid, out) :: l

/-- Observable state of the bridge: which requestIds have a live entry in
pendingRequests, which have an armed (not yet cleared, not yet fired)
timeout, and how each request's promise settled. -/
structure BridgeState where
  pendingRequests : List String
  timers : List String
  settledAs : List (String × Settled)
deriving DecidableEq, Repr

/-- The bridge before any request is issued. -/
def emptyBridge : BridgeState := ⟨[], [], []⟩

/-- The setup block of one callPuterAPI attempt (lines 355-372): arm the
60-second timeout and store the pending entry for the fresh requestId. -/
def armRequest (st : BridgeState) (rid : String) : BridgeState :=
  ⟨rid :: st.pendingRequests, rid :: st.timers, st.settledAs⟩

/-- handleAPIResponse (lines 37-47): look up the pending entry by
requestId; if present, the stored callback clears the timeout and
resolves with response.data (success) or rejects with
response.error || defaulted text, and the entry is deleted; if absent,
nothing happens. -/
def handleAPIResponse (st : BridgeState) (resp : PuterAPIResponse) :
    BridgeState :=
  if st.pendingRequests.contains resp.requestId then
    ⟨st.pendingRequests.erase resp.requestId,
     st.timers.erase resp.requestId,
     settleOnce st.settledAs resp.requestId
       (if resp.success then Settled.resolved resp.data
        else Settled.rejected (jsOrDefault resp.error "Unknown error"))⟩
  else st

/-- The 60-second timeout firing (lines 357-360): only possible while the
timer is still armed; deletes the pending entry, then rejects the
promise with the timeout message. -/
def expireTimeout (st : BridgeState) (rid : String) : BridgeState :=
  if st.timers.contains rid then
    ⟨st.pendingRequests.erase rid,
     st.timers.erase rid,
     settleOnce st.settledAs rid
       (Settled.rejected
         "Request timeout - AI service did not respond within 60 seconds")⟩
  else st

/-! ## The retry loop of callPuterAPI (lines 344-402), as an event trace.
The remote executor is a parameter: `outcomes i` is how attempt i's
promise settles (a response payload, the executor's reported error, or
the timeout message).  `genId i` is the requestId generated for attempt i
(in the source, from Date.now and Math.random). -/

/-- One observable side effect of the retry loop. -/
inductive BridgeEvent where
  | armTimer (rid : String)
  | insertPending (rid : String)
  | postDescriptor (rid : String) (method : String)
  | sleep (ms : Nat)
deriving DecidableEq, Repr

/-- Events of one attempt, in source order: setTimeout, then
pendingRequests.set, then webview.postMessage of the apiRequest
descriptor (lines 355-380). -/
def attemptEvents (rid : String) (method : String) : List BridgeEvent :=
  [BridgeEvent.armTimer rid, BridgeEvent.insertPending rid,
   BridgeEvent.postDescriptor rid method]

/-- Result of a call together with the ordered side effects it produced. -/
structure CallTrace where
  events : List BridgeEvent
  result : Except String String
deriving Repr

/-- JavaScript string.includes(pattern). -/
def strIncludes (s pat : String) : Bool :=
  s.toList.tails.any (fun t => pat.toList.isPrefixOf t)

/-- The non-retryable check of lines 388-390: substring inspection of the
error message. -/
def nonRetryableMessage (msg : String) : Bool :=
  strIncludes msg "not initialized" || strIncludes msg "Invalid model" ||
    strIncludes msg "Authentication failed"

/-- Rendering of lastError?.message in the final template string; a null
lastError prints as undefined. -/
def jsErrMsg (lastError : Option String) : String :=
  match lastError with
  | some e => e
  | none => "undefined"

/-- The for-loop of lines 351-399, with fuel `remaining` = retries -
attempt.  On success return the data; on a non-retryable error rethrow it;
on a retryable error sleep 2^attempt * 1000 ms when another attempt is
left, and otherwise fall through to the final wrapped throw of line 401. -/
def callLoop (genId : Nat → String) (method : String)
    (outcomes : Nat → Except String String) (retries : Nat) :
    Nat → Nat → Option String → CallTrace
  | 0, _, lastError =>
      ⟨[], Except.error ("Failed after " ++ toString retries ++
        " attempts: " ++ jsErrMsg lastError)⟩
  | remaining + 1, attempt, _ =>
      let rid := genId attempt
      match outcomes attempt with
      | Except.ok data => ⟨attemptEvents rid method, Except.ok data⟩
      | Except.error err =>
        if nonRetryableMessage err then
          ⟨attemptEvents rid method, Except.error err⟩
        else
          let rest := callLoop genId method outcomes retries remaining
            (attempt + 1) (some err)
          if remaining = 0 then
            ⟨attemptEvents rid method ++ rest.events, rest.result⟩
          else
            ⟨attemptEvents rid method ++
              (BridgeEvent.sleep (2 ^ attempt * 1000) :: rest.events),
             rest.result⟩

/-- callPuterAPI (lines 344-402): guard on the webview provider, then run
the retry loop from attempt 0. -/
def callPuterAPI (genId : Nat → String) (hasProvider : Bool)
    (method : String) (outcomes : Nat → Except String String)
    (retries : Nat) : CallTrace :=
  if hasProvider then callLoop genId method outcomes retries retries 0 none
  else ⟨[], Except.error "Webview provider not initialized"⟩

/-- callPuterAPI at its default retries = 3. -/
def callPuterAPI3 (genId : Nat → String) (hasProvider : Bool)
    (method : String) (outcomes : Nat → Except String String) : CallTrace :=
  callPuterAPI genId hasProvider method outcomes 3

/-- The requestIds of the outbound descriptors in a trace, in dispatch
order. -/
def postedIds (t : CallTrace) : List String :=
  t.events.filterMap (fun ev =>
    match ev with
    | BridgeEvent.postDescriptor rid _ => some rid
    | _ => none)

/-- The sleeps of a trace, in order, in milliseconds. -/
def sleepsOf (t : CallTrace) : List Nat :=
  t.events.filterMap (fun ev =>
    match ev with
    | BridgeEvent.sleep ms => some ms
    | _ => none)

/-! ## chatWithStreaming (lines 404-448)
Its pre-dispatch phase is a function of the enableStreaming configuration
flag, the presence of the webview provider, and (in the non-streaming
branch) the outcome of the inner this.chat call, which is a parameter. -/

/-- What chatWithStreaming has observably done by the time it either
settles or leaves a streaming request in flight: the onChunk calls made,
whether a streamRequest descriptor was posted, and the promise outcome
(none while the streaming reply is still awaited). -/
structure StreamPhase where
  chunks : List String
  dispatched : Bool
  result : Option (Except String Unit)
deriving Repr

/-- chatWithStreaming (lines 404-448).  With streaming disabled it awaits
this.chat and forwards the whole reply through a single onChunk call
(lines 411-415); a chat failure propagates before any chunk is delivered.
Otherwise it guards on the provider (lines 417-419) and then posts one
streamRequest descriptor and waits (lines 425-447). -/
def chatWithStreaming (enableStreaming hasProvider : Bool)
    (chatResult : Except String String) : StreamPhase :=
  if enableStreaming = false then
    match chatResult with
    | Except.ok r => ⟨[r], false, some (Except.ok ())⟩
    | Except.error e => ⟨[], false, some (Except.error e)⟩
  else if hasProvider = false then
    ⟨[], false, some (Except.error "Webview provider not initialized")⟩
  else
    ⟨[], true, none⟩

/-- Modelled from the spec, for the refinement claim about the disabled-
streaming path: deliver the entire non-streaming chat result through
exactly one chunk callback and complete, or propagate the chat failure
with no chunk delivered. -/
def specWholeResultAsOneChunk (chatResult : Except String String) :
    StreamPhase :=
  match chatResult with
  | Except.ok r => ⟨[r], false, some (Except.ok ())⟩
  | Except.error e => ⟨[], false, some (Except.error e)⟩

/-! ## Streaming protocol
Producer: handleStreamRequest in the webview script (part_001 lines
724-768) posts streamChunk events and a final streamEnd or streamError.
Host side: the only webview-to-host handler in the program is the
provider's onDidReceiveMessage switch (part_001 lines 37-79); the
listener chatWithStreaming builds (lines 427-436) is never registered
anywhere, so stream events can only go through that switch. -/

/-- A message posted by the webview for a streaming request. -/
inductive WebviewMsg where
  | streamChunk (rid : String) (chunk : String)
  | streamEnd (rid : String)
  | streamError (rid : String) (err : String)
deriving DecidableEq, Repr

/-- How the call to puter.ai.chat with stream: true behaves, as seen by
handleStreamRequest.  `iter cs fail` is an async-iterable yielding the
already-normalized chunk texts cs and then, when fail is some e, throwing
e; `plain v` is a non-iterable reply handled by the fallback branch;
`failed e` is an await that throws before anything is yielded. -/
inductive StreamSource where
  | iter (chunks : List String) (fail : Option String)
  | plain (value : String)
  | failed (err : String)
deriving Repr

/-- handleStreamRequest (part_001 lines 724-768): iterate the stream
posting one streamChunk per chunk and a final streamEnd; on a
non-iterable reply post its text as a single chunk then streamEnd; on a
thrown error post streamError (the chunks already posted remain). -/
def handleStreamRequest (rid : String) : StreamSource → List WebviewMsg
  | StreamSource.iter cs none =>
      cs.map (WebviewMsg.streamChunk rid) ++ [WebviewMsg.streamEnd rid]
  | StreamSource.iter cs (some e) =>
      cs.map (WebviewMsg.streamChunk rid) ++ [WebviewMsg.streamError rid e]
  | StreamSource.plain v =>
      [WebviewMsg.streamChunk rid v, WebviewMsg.streamEnd rid]
  | StreamSource.failed e =>
      [WebviewMsg.streamError rid e]

/-- State of the extension host that a streaming call can observe: the
bridge's pending-request table, the onChunk calls chatWithStreaming has
made, and the settlement of the promise chatWithStreaming returned (none
while it is still pending). -/
structure HostState where
  bridge : BridgeState
  delivered : List String
  outcome : Option (Except String Unit)
deriving Repr

/-- A message posted from the webview to the extension host that is
relevant to the bridge: an apiResponse reply, or one of the streaming
events. -/
inductive PostedMsg where
  | apiResponse (resp : PuterAPIResponse)
  | stream (m : WebviewMsg)
deriving Repr

/-- The provider's onDidReceiveMessage switch (part_001 lines 37-79), the
only webview-to-host message handler the program ever registers.  Its
cases are chat, insertCode, agentModify, apiResponse, clearHistory,
getHistory and openExternal; apiResponse is routed to the service's
handleAPIResponse (the cases not modelled here touch only the editor UI
and the conversation store, not this state).  streamChunk, streamEnd and
streamError match no case, and the listener of chatWithStreaming (lines
427-436) is never registered, so every stream event is dropped: no
onChunk call is made and the streaming promise is never settled. -/
def onDidReceiveMessage (st : HostState) (m : PostedMsg) : HostState :=
  match m with
  | PostedMsg.apiResponse resp =>
      ⟨handleAPIResponse st.bridge resp, st.delivered, st.outcome⟩
  | PostedMsg.stream _ => st

/-- Whether a message is a terminal event of the streaming protocol. -/
def isTerminalMsg : WebviewMsg → Bool
  | WebviewMsg.streamChunk _ _ => false
  | WebviewMsg.streamEnd _ => true
  | WebviewMsg.streamError _ _ => true

/-- The chunk texts a given source makes handleStreamRequest post. -/
def chunksOf : StreamSource → List String
  | StreamSource.iter cs _ => cs
  | StreamSource.plain v => [v]
  | StreamSource.failed _ => []

/-- The terminal message itself. -/
def terminalMsg (rid : String) : StreamSource → WebviewMsg
  | StreamSource.iter _ none => WebviewMsg.streamEnd rid
  | StreamSource.iter _ (some e) => WebviewMsg.streamError rid e
  | StreamSource.plain _ => WebviewMsg.streamEnd rid
  | StreamSource.failed e => WebviewMsg.streamError rid e

/-! ## agentModifyCode (lines 240-280) -/

/-- The structured result of a code-modification request. -/
structure AgentResult where
  modifiedCode : String
  explanation : String
  changesSummary : String
deriving DecidableEq, Repr

/-- The regex match of line 266: response.match of a brace-to-brace
pattern returns, when the text has an opening brace strictly before its
last closing brace, the substring from the first opening brace through
the last closing brace (leftmost start, greedy middle); otherwise null. -/
def jsMatchBraceBlock (s : String) : Option String :=
  let cs := s.toList
  match cs.findIdx? (fun c => c = '{'), cs.reverse.findIdx? (fun c => c = '}') with
  | some i, some k =>
    let j := cs.length - 1 - k
    if i < j then some (String.mk ((cs.drop i).take (j - i + 1))) else none
  | _, _ => none

/-- agentModifyCode's reply handling (lines 262-280).  The executor reply
text and the original code are inputs; JSON.parse together with the
result shape is the platform parameter `parse`, returning the parsed
record or, in the error case, the thrown error's rendering.  A reply with
no brace-delimited block falls back to the original code and a
"No changes made" summary inside the try block; a brace block that fails
to parse escapes to the catch, which throws the wrapped parse error. -/
def agentModifyCode (parse : String → Except String AgentResult)
    (response code : String) : Except String AgentResult :=
  match jsMatchBraceBlock response with
  | some block =>
    match parse block with
    | Except.ok r => Except.ok r
    | Except.error e =>
        Except.error ("Failed to parse agent response: " ++ e)
  | none =>
      Except.ok ⟨code, "Could not parse agent response", "No changes made"⟩

/-! ## Claim theorems -/

/-- Claim C4: after appending any sequence of messages to a fresh
conversation, getHistory returns exactly the most recent maxHistoryLength
messages in original relative order (for N > 50 the trailing 50, each
insertion beyond the cap evicting the oldest), and after any sequence of
store operations no stored history exceeds 50 messages. -/
theorem claim_C4_history_fifo_cap :
    (∀ (msgs : List ChatMessage) (cid : String),
      getHistory (msgs.foldl (fun st m => storeAdd st cid m) emptyStore) cid =
        msgs.drop (msgs.length - maxHistoryLength)) ∧
    (∀ (ops : List StoreOp) (cid : String),
      (getHistory (applyOps emptyStore ops) cid).length ≤ maxHistoryLength) := by
  constructor
  · intro msgs cid
    rw [getHistory, storeAdd_foldl_at]
    have h0 : emptyStore cid = [] := rfl
    rw [h0, foldl_addToHistory_window msgs [] (by simp)]
    simp
  · intro ops cid
    exact applyOps_cap ops emptyStore (fun _ => by simp [emptyStore]) cid

/-- Claim C9: clearHistory followed by getHistory yields the empty list
for any prior content; getHistory on a never-written id yields the empty
list; clearHistory on an id with no stored history leaves the store
unchanged (and all three operations are total, hence never throw). -/
theorem claim_C9_clear_and_unknown_ids (st : ConvStore) (cid cid2 : String)
    (h : getHistory st cid2 = []) :
    getHistory (clearHistory st cid) cid = [] ∧
    getHistory emptyStore cid = [] ∧
    clearHistory st cid2 = st := by
  refine ⟨?_, rfl, ?_⟩
  · simp [getHistory, clearHistory, Function.update]
  · have hv : st cid2 = [] := h
    funext x
    by_cases hx : x = cid2
    · subst hx
      simp [clearHistory, Function.update, hv]
    · simp [clearHistory, Function.update_noteq hx]

/-- Claim C9 witness at a concrete store and ids. -/
theorem claim_C9_clear_and_unknown_ids_witness :
    getHistory (clearHistory emptyStore "a") "a" = [] ∧
    getHistory emptyStore "a" = [] ∧
    clearHistory emptyStore "b" = emptyStore :=
  claim_C9_clear_and_unknown_ids emptyStore "a" "b" rfl

/-- Claim C1: for a request armed with a pending entry and a timeout, the
response path (handleAPIResponse) and the timeout path (expireTimeout)
are mutually exclusive: after either one the entry and the timer for that
requestId are gone and its promise has settled exactly once, the other
path applied afterwards leaves the state unchanged, and handleAPIResponse
for a requestId with no pending entry is a silent no-op. -/
theorem claim_C1_settle_expire_exclusive (rid : String) (succ : Bool)
    (d e : Option String) (st : BridgeState)
    (hnone : st.pendingRequests.contains rid = false) :
    (expireTimeout
        (handleAPIResponse (armRequest emptyBridge rid) ⟨rid, succ, d, e⟩)
        rid =
      handleAPIResponse (armRequest emptyBridge rid) ⟨rid, succ, d, e⟩) ∧
    ((handleAPIResponse (armRequest emptyBridge rid)
        ⟨rid, succ, d, e⟩).pendingRequests.contains rid = false) ∧
    ((handleAPIResponse (armRequest emptyBridge rid)
        ⟨rid, succ, d, e⟩).timers.contains rid = false) ∧
    (((handleAPIResponse (armRequest emptyBridge rid)
        ⟨rid, succ, d, e⟩).settledAs.filter
          (fun p => p.1 = rid)).length = 1) ∧
    (handleAPIResponse (expireTimeout (armRequest emptyBridge rid) rid)
        ⟨rid, succ, d, e⟩ =
      expireTimeout (armRequest emptyBridge rid) rid) ∧
    ((expireTimeout (armRequest emptyBridge rid)
        rid).pendingRequests.contains rid = false) ∧
    (((expireTimeout (armRequest emptyBridge rid) rid).settledAs.filter
        (fun p => p.1 = rid)).length = 1) ∧
    handleAPIResponse st ⟨rid, succ, d, e⟩ = st := by
  have harm : armRequest emptyBridge rid = ⟨[rid], [rid], []⟩ := rfl
  have hs1 : handleAPIResponse (armRequest emptyBridge rid) ⟨rid, succ, d, e⟩ =
      ⟨[], [],
       [(rid, if succ then Settled.resolved d
              else Settled.rejected (jsOrDefault e "Unknown error"))]⟩ := by
    simp [handleAPIResponse, armRequest, emptyBridge, settleOnce,
      List.erase_cons_head]
  have hs2 : expireTimeout (armRequest emptyBridge rid) rid =
      ⟨[], [],
       [(rid, Settled.rejected
          "Request timeout - AI service did not respond within 60 seconds")]⟩ := by
    simp [expireTimeout, armRequest, emptyBridge, settleOnce,
      List.erase_cons_head]
  refine ⟨?_, ?_, ?_, ?_, ?_, ?_, ?_, ?_⟩
  · rw [hs1]; simp [expireTimeout]
  · rw [hs1]; simp
  · rw [hs1]; simp
  · rw [hs1]; simp
  · rw [hs2]; simp [handleAPIResponse]
  · rw [hs2]; simp
  · rw [hs2]; simp
  · unfold handleAPIResponse
    rw [hnone]
    simp

/-- Claim C1 witness at a concrete requestId, response and bridge state. -/
theorem claim_C1_settle_expire_exclusive_witness :
    (expireTimeout
        (handleAPIResponse (armRequest emptyBridge "req_1")
          ⟨"req_1", true, some "x", none⟩) "req_1" =
      handleAPIResponse (armRequest emptyBridge "req_1")
        ⟨"req_1", true, some "x", none⟩) ∧
    ((handleAPIResponse (armRequest emptyBridge "req_1")
        ⟨"req_1", true, some "x", none⟩).pendingRequests.contains "req_1" =
      false) ∧
    ((handleAPIResponse (armRequest emptyBridge "req_1")
        ⟨"req_1", true, some "x", none⟩).timers.contains "req_1" = false) ∧
    (((handleAPIResponse (armRequest emptyBridge "req_1")
        ⟨"req_1", true, some "x", none⟩).settledAs.filter
          (fun p => p.1 = "req_1")).length = 1) ∧
    (handleAPIResponse (expireTimeout (armRequest emptyBridge "req_1") "req_1")
        ⟨"req_1", true, some "x", none⟩ =
      expireTimeout (armRequest emptyBridge "req_1") "req_1") ∧
    ((expireTimeout (armRequest emptyBridge "req_1")
        "req_1").pendingRequests.contains "req_1" = false) ∧
    (((expireTimeout (armRequest emptyBridge "req_1") "req_1").settledAs.filter
        (fun p => p.1 = "req_1")).length = 1) ∧
    handleAPIResponse emptyBridge ⟨"req_1", true, some "x", none⟩ =
      emptyBridge :=
  claim_C1_settle_expire_exclusive "req_1" true (some "x") none emptyBridge
    (by decide)

/-- Claim C7: when the executor immediately answers the first attempt's
requestId with success and data "Hello!", the call returns "Hello!" after
exactly one dispatched descriptor, and at the table level the settlement
records resolution with "Hello!" while the pending entry and the armed
timeout for that requestId are both gone. -/
theorem claim_C7_immediate_success :
    (∀ genId : Nat → String,
      callPuterAPI3 genId true "chat" (fun _ => Except.ok "Hello!") =
        ⟨attemptEvents (genId 0) "chat", Except.ok "Hello!"⟩) ∧
    ((handleAPIResponse (armRequest emptyBridge "req_1")
        ⟨"req_1", true, some "Hello!", none⟩).settledAs =
      [("req_1", Settled.resolved (some "Hello!"))]) ∧
    ((handleAPIResponse (armRequest emptyBridge "req_1")
        ⟨"req_1", true, some "Hello!", none⟩).pendingRequests = []) ∧
    ((handleAPIResponse (armRequest emptyBridge "req_1")
        ⟨"req_1", true, some "Hello!", none⟩).timers = []) := by
  refine ⟨fun genId => rfl, ?_, ?_, ?_⟩ <;> decide

/-- Claim C2: when every attempt fails with a retryable error, the call
makes exactly 3 attempts, posts exactly 3 outbound descriptors each with
its own freshly generated requestId, sleeps 2^attempt seconds between
attempts (1000 ms after attempt 0, 2000 ms after attempt 1, none after
the last), and rejects with the last failure wrapped in a message naming
3 attempts. -/
theorem claim_C2_retry_exhaustion (genId : Nat → String) (method : String)
    (outcomes : Nat → Except String String) (e0 e1 e2 : String)
    (h0 : outcomes 0 = Except.error e0)
    (hr0 : nonRetryableMessage e0 = false)
    (h1 : outcomes 1 = Except.error e1)
    (hr1 : nonRetryableMessage e1 = false)
    (h2 : outcomes 2 = Except.error e2)
    (hr2 : nonRetryableMessage e2 = false)
    (hida : genId 0 ≠ genId 1) (hidb : genId 0 ≠ genId 2)
    (hidc : genId 1 ≠ genId 2) :
    callPuterAPI3 genId true method outcomes =
      ⟨attemptEvents (genId 0) method ++ BridgeEvent.sleep 1000 ::
        (attemptEvents (genId 1) method ++ BridgeEvent.sleep 2000 ::
          attemptEvents (genId 2) method),
       Except.error ("Failed after 3 attempts: " ++ e2)⟩ ∧
    postedIds (callPuterAPI3 genId true method outcomes) =
      [genId 0, genId 1, genId 2] ∧
    (postedIds (callPuterAPI3 genId true method outcomes)).Nodup ∧
    sleepsOf (callPuterAPI3 genId true method outcomes) = [1000, 2000] := by
  have htrace : callPuterAPI3 genId true method outcomes =
      ⟨attemptEvents (genId 0) method ++ BridgeEvent.sleep 1000 ::
        (attemptEvents (genId 1) method ++ BridgeEvent.sleep 2000 ::
          attemptEvents (genId 2) method),
       Except.error ("Failed after 3 attempts: " ++ e2)⟩ := by
    have L0 : callLoop genId method outcomes 3 0 3 (some e2) =
        ⟨[], Except.error ("Failed after 3 attempts: " ++ e2)⟩ := by
      rw [callLoop]
      rfl
    have L1 : callLoop genId method outcomes 3 1 2 (some e1) =
        ⟨attemptEvents (genId 2) method,
         Except.error ("Failed after 3 attempts: " ++ e2)⟩ := by
      rw [callLoop]
      simp [h2, hr2, L0]
    have L2 : callLoop genId method outcomes 3 2 1 (some e0) =
        ⟨attemptEvents (genId 1) method ++ BridgeEvent.sleep 2000 ::
          attemptEvents (genId 2) method,
         Except.error ("Failed after 3 attempts: " ++ e2)⟩ := by
      rw [callLoop]
      simp [h1, hr1, L1]
    unfold callPuterAPI3 callPuterAPI
    rw [if_pos rfl, callLoop]
    simp [h0, hr0, L2]
  refine ⟨htrace, ?_, ?_, ?_⟩
  · rw [htrace]
    simp [postedIds, attemptEvents]
  · rw [htrace]
    simp [postedIds, attemptEvents, List.nodup_cons, hida, hidb, hidc]
  · rw [htrace]
    simp [sleepsOf, attemptEvents]

/-- Claim C2 witness: three consecutive 60-second timeouts with distinct
generated ids. -/
theorem claim_C2_retry_exhaustion_witness :
    callPuterAPI3 (fun n => toString n) true "chat"
      (fun _ => Except.error
        "Request timeout - AI service did not respond within 60 seconds") =
      ⟨attemptEvents "0" "chat" ++ BridgeEvent.sleep 1000 ::
        (attemptEvents "1" "chat" ++ BridgeEvent.sleep 2000 ::
          attemptEvents "2" "chat"),
       Except.error ("Failed after 3 attempts: " ++
         "Request timeout - AI service did not respond within 60 seconds")⟩ ∧
    postedIds (callPuterAPI3 (fun n => toString n) true "chat"
      (fun _ => Except.error
        "Request timeout - AI service did not respond within 60 seconds")) =
      ["0", "1", "2"] ∧
    (postedIds (callPuterAPI3 (fun n => toString n) true "chat"
      (fun _ => Except.error
        "Request timeout - AI service did not respond within 60 seconds"))).Nodup ∧
    sleepsOf (callPuterAPI3 (fun n => toString n) true "chat"
      (fun _ => Except.error
        "Request timeout - AI service did not respond within 60 seconds")) =
      [1000, 2000] :=
  claim_C2_retry_exhaustion (fun n => toString n) "chat"
    (fun _ => Except.error
      "Request timeout - AI service did not respond within 60 seconds")
    "Request timeout - AI service did not respond within 60 seconds"
    "Request timeout - AI service did not respond within 60 seconds"
    "Request timeout - AI service did not respond within 60 seconds"
    rfl (by decide) rfl (by decide) rfl (by decide)
    (by decide) (by decide) (by decide)

/-- Claim C5: a first-attempt failure whose message matches a
non-retryable substring is rethrown unchanged with no further attempts
and no backoff sleep, after exactly one outbound descriptor. -/
theorem claim_C5_nonretryable_immediate (genId : Nat → String)
    (method err : String) (outcomes : Nat → Except String String)
    (h0 : outcomes 0 = Except.error err)
    (hnr : nonRetryableMessage err = true) :
    callPuterAPI3 genId true method outcomes =
      ⟨attemptEvents (genId 0) method, Except.error err⟩ ∧
    postedIds (callPuterAPI3 genId true method outcomes) = [genId 0] ∧
    sleepsOf (callPuterAPI3 genId true method outcomes) = [] := by
  have htrace : callPuterAPI3 genId true method outcomes =
      ⟨attemptEvents (genId 0) method, Except.error err⟩ := by
    unfold callPuterAPI3 callPuterAPI callLoop
    simp [h0, hnr]
  refine ⟨htrace, ?_, ?_⟩ <;> rw [htrace] <;>
    simp [postedIds, sleepsOf, attemptEvents]

/-- Claim C5 witness: an Invalid model failure on the first attempt. -/
theorem claim_C5_nonretryable_immediate_witness :
    callPuterAPI3 (fun n => toString n) true "chat"
      (fun _ => Except.error "Invalid model: foo") =
      ⟨attemptEvents "0" "chat", Except.error "Invalid model: foo"⟩ ∧
    postedIds (callPuterAPI3 (fun n => toString n) true "chat"
      (fun _ => Except.error "Invalid model: foo")) = ["0"] ∧
    sleepsOf (callPuterAPI3 (fun n => toString n) true "chat"
      (fun _ => Except.error "Invalid model: foo")) = [] :=
  claim_C5_nonretryable_immediate (fun n => toString n) "chat"
    "Invalid model: foo" (fun _ => Except.error "Invalid model: foo")
    rfl (by decide)

/-- Claim C6: with no webview provider attached, callPuterAPI fails at
once with the not-initialized error and an empty event trace (no timer
armed, no pending entry inserted, no descriptor posted, for any retry
budget), and chatWithStreaming with streaming enabled fails the same way
before dispatching; the error message contains "not initialized". -/
theorem claim_C6_uninitialized_provider (genId : Nat → String)
    (method : String) (outcomes : Nat → Except String String)
    (retries : Nat) (chatResult : Except String String) :
    callPuterAPI genId false method outcomes retries =
      ⟨[], Except.error "Webview provider not initialized"⟩ ∧
    chatWithStreaming true false chatResult =
      ⟨[], false, some (Except.error "Webview provider not initialized")⟩ ∧
    strIncludes "Webview provider not initialized" "not initialized" =
      true := by
  exact ⟨rfl, rfl, by decide⟩

/-- Claim C10: with the enableStreaming flag false, chatWithStreaming is
exactly the specified single-chunk delivery of the non-streaming chat
result (one onChunk call with the whole reply on success, rejection with
no chunk on failure) and never posts a streaming descriptor. -/
theorem claim_C10_nonstreaming_refinement (hasProvider : Bool)
    (chatResult : Except String String) :
    chatWithStreaming false hasProvider chatResult =
      specWholeResultAsOneChunk chatResult ∧
    (chatWithStreaming false hasProvider chatResult).dispatched = false := by
  cases chatResult <;> exact ⟨rfl, rfl⟩

/-- Claim C8: a reply with no brace-delimited block succeeds with the
original code and summary "No changes made", while a reply whose brace
block fails JSON parsing throws the wrapped parse error. -/
theorem claim_C8_parse_fallback_vs_throw
    (parse : String → Except String AgentResult)
    (response1 response2 code block perr : String)
    (h1 : jsMatchBraceBlock response1 = none)
    (h2 : jsMatchBraceBlock response2 = some block)
    (h3 : parse block = Except.error perr) :
    agentModifyCode parse response1 code =
      Except.ok ⟨code, "Could not parse agent response", "No changes made"⟩ ∧
    agentModifyCode parse response2 code =
      Except.error ("Failed to parse agent response: " ++ perr) := by
  constructor
  · simp [agentModifyCode, h1]
  · simp [agentModifyCode, h2, h3]

/-- Claim C8 witness: a braceless reply and a reply with an unparsable
brace block. -/
theorem claim_C8_parse_fallback_vs_throw_witness :
    agentModifyCode (fun _ => Except.error "SyntaxError") "no braces here"
        "orig" =
      Except.ok ⟨"orig", "Could not parse agent response", "No changes made"⟩ ∧
    agentModifyCode (fun _ => Except.error "SyntaxError") "x{oops}y" "orig" =
      Except.error ("Failed to parse agent response: " ++ "SyntaxError") :=
  claim_C8_parse_fallback_vs_throw (fun _ => Except.error "SyntaxError")
    "no braces here" "x{oops}y" "orig" "{oops}" "SyntaxError"
    (by decide) (by decide) rfl

/-! ### Streaming helper lemmas -/

theorem stream_msgs_dropped (msgs : List WebviewMsg) :
    ∀ st : HostState,
      (msgs.map PostedMsg.stream).foldl onDidReceiveMessage st = st := by
  induction msgs with
  | nil => intro st; rfl
  | cons m rest ih =>
    intro st
    simp only [List.map_cons, List.foldl_cons]
    exact ih st

theorem filter_terminal_chunk_block (rid : String) (cs : List String) :
    (cs.map (WebviewMsg.streamChunk rid)).filter isTerminalMsg = [] := by
  induction cs with
  | nil => rfl
  | cons c rest ih => simp [isTerminalMsg, ih]

/-- Claim C3 records a code bug.  The webview's handleStreamRequest does
post zero or more streamChunk events followed by exactly one terminal
event (streamEnd or streamError, never both), but on the host side those
messages can only reach the provider's onDidReceiveMessage switch, which
has no case for them, and the listener chatWithStreaming builds is never
registered; so the entire stream is dropped — concretely, after the
executor streams the chunks "Hel", "lo!" and streamEnd for requestId
"stream_1", the caller has received no chunk and the promise returned by
chatWithStreaming is still unsettled, instead of the claimed delivery of
the chunks followed by successful completion. -/
theorem claim_C3_stream_events_never_reach_caller (rid : String)
    (src : StreamSource) :
    handleStreamRequest rid src =
      (chunksOf src).map (WebviewMsg.streamChunk rid) ++
        [terminalMsg rid src] ∧
    isTerminalMsg (terminalMsg rid src) = true ∧
    ((handleStreamRequest rid src).filter isTerminalMsg).length = 1 ∧
    (∀ st : HostState,
      ((handleStreamRequest rid src).map PostedMsg.stream).foldl
        onDidReceiveMessage st = st) ∧
    (((handleStreamRequest "stream_1"
        (StreamSource.iter ["Hel", "lo!"] none)).map PostedMsg.stream).foldl
        onDidReceiveMessage ⟨emptyBridge, [], none⟩).delivered = [] ∧
    (((handleStreamRequest "stream_1"
        (StreamSource.iter ["Hel", "lo!"] none)).map PostedMsg.stream).foldl
        onDidReceiveMessage ⟨emptyBridge, [], none⟩).outcome = none := by
  have hshape : handleStreamRequest rid src =
      (chunksOf src).map (WebviewMsg.streamChunk rid) ++
        [terminalMsg rid src] := by
    cases src with
    | iter cs fail => cases fail <;> rfl
    | plain v => rfl
    | failed e => rfl
  have hterm : isTerminalMsg (terminalMsg rid src) = true := by
    cases src with
    | iter cs fail => cases fail <;> rfl
    | plain v => rfl
    | failed e => rfl
  refine ⟨hshape, hterm, ?_, ?_, ?_, ?_⟩
  · rw [hshape, List.filter_append, filter_terminal_chunk_block]
    simp [hterm]
  · intro st
    exact stream_msgs_dropped (handleStreamRequest rid src) st
  · rw [stream_msgs_dropped]
  · rw [stream_msgs_dropped]
